import Mathlib

/-!
# Verification of the mcp-test tool-dispatch server (`src/main.py`)

Shallow embedding of the FastAPI MCP-style server: the single-shot `/mcp`
endpoint (`mcp_endpoint`, `_derive_output_text`), the JSON-RPC endpoint
`/mcp/rpc` (`mcp_rpc`), the tool registry `TOOLS` and the tool handlers
`_tool_echo`, `_tool_upper`, `_tool_query_manse`.

JSON payloads (Python objects produced by parsing a request body) are
modelled by the inductive type `JValue`; Python's `str()`/`repr()` on such
values by `pyStr`/`pyRepr`; Python truthiness (`or` defaults, `if not x`)
by `pyTruthy`.  The database collaborator (`get_db_cursor` + `cur.execute`
+ `fetchall`) is a parameter of type `DB`: a function from SQL text and
parameter list to either an error or a list of rows (dictionaries, as
produced by `DictCursor`).
-/

set_option autoImplicit false

namespace McpTest

/-- A parsed JSON value as materialised by FastAPI/pydantic into Python
objects: `None`, `bool`, `int`, `str`, `list`, `dict` (association list in
insertion order, keys unique). -/
inductive JValue where
  | null
  | bool (b : Bool)
  | int (n : Int)
  | str (s : String)
  | arr (xs : List JValue)
  | obj (kvs : List (String × JValue))
deriving Inhabited

/-- Python truthiness of a parsed JSON value: `None`, `False`, `0`, `""`,
`[]`, `{}` are falsy, everything else truthy.  Used by the source's
`x or default` idioms and `if not name:`. -/
def pyTruthy : JValue → Bool
  | .null => false
  | .bool b => b
  | .int n => n != 0
  | .str s => s != ""
  | .arr xs => !xs.isEmpty
  | .obj kvs => !kvs.isEmpty

/-- Python `a or b` on parsed values: `a` if truthy, else `b`. -/
def pyOr (a b : JValue) : JValue :=
  if pyTruthy a then a else b

/-- One escaped character of a CPython string `repr`, given the chosen
quote character `q`: backslash and the quote are backslash-escaped, the
common control characters get their two-character escapes, and other
characters stand for themselves (we model printable characters). -/
def pyEscapeChar (q : Char) (c : Char) : String :=
  if c = '\\' then "\\\\"
  else if c = q then "\\" ++ q.toString
  else if c = '\n' then "\\n"
  else if c = '\r' then "\\r"
  else if c = '\t' then "\\t"
  else c.toString

/-- CPython `repr` of a `str`: single quotes, except that a string
containing `'` but no `"` is rendered with double quotes. -/
def pyReprString (s : String) : String :=
  if s.data.contains '\'' && !s.data.contains '"' then
    "\"" ++ String.join (s.data.map (pyEscapeChar '"')) ++ "\""
  else
    "'" ++ String.join (s.data.map (pyEscapeChar '\'')) ++ "'"

mutual

/-- Python `repr()` of a parsed JSON value (`None`/`True`/`False`, decimal
integers, quoted strings, `[...]` lists and `{...}` dicts with `", "`
separators and `": "` between key and value). -/
def pyRepr : JValue → String
  | .null => "None"
  | .bool true => "True"
  | .bool false => "False"
  | .int n => toString n
  | .str s => pyReprString s
  | .arr xs => "[" ++ pyReprItems xs ++ "]"
  | .obj kvs => "\x7b" ++ pyReprPairs kvs ++ "\x7d"

/-- Comma-separated `repr`s of list items. -/
def pyReprItems : List JValue → String
  | [] => ""
  | [v] => pyRepr v
  | v :: vs => pyRepr v ++ ", " ++ pyReprItems vs

/-- Comma-separated `key: value` pairs of a dict `repr`. -/
def pyReprPairs : List (String × JValue) → String
  | [] => ""
  | [(k, v)] => pyReprString k ++ ": " ++ pyRepr v
  | (k, v) :: ps => pyReprString k ++ ": " ++ pyRepr v ++ ", " ++ pyReprPairs ps

end

/-- Python `str()` of a parsed JSON value: the string itself for a `str`,
`repr` for everything else (matching CPython, where `str` and `repr`
agree on `None`, booleans, ints, lists and dicts). -/
def pyStr : JValue → String
  | .str s => s
  | v => pyRepr v

/-- Python `str.upper()` (ASCII model, which the source exercises). -/
def pyUpper (s : String) : String :=
  ⟨s.data.map Char.toUpper⟩

/-- `d.get(k)` on a Python dict parsed from JSON: the first value bound to
`k`, or `None` when the key is absent. -/
def dGet (kvs : List (String × JValue)) (k : String) : JValue :=
  (kvs.lookup k).getD .null

/-- Whether a value is Python `None`. -/
def JValue.isNull : JValue → Bool
  | .null => true
  | _ => false

/-- `isinstance(v, int)` together with the integer value: Python `bool` is
a subclass of `int` (`True == 1`, `False == 0`); no other JSON value is an
`int`. -/
def pyIntVal : JValue → Option Int
  | .int n => some n
  | .bool b => some (if b then 1 else 0)
  | _ => none

/-- A produced output unit: the dict `{"type": ..., "content": ...}`
returned by a tool handler (`content` is a string for the text tools and a
structured value for `query_manse`). -/
structure Output where
  type : String
  content : JValue
deriving Inhabited

/-- How a Python tool handler can fail: `valueError m` models
`raise ValueError(m)` (caught by the dispatcher as `InvalidParams`);
`otherError m` models any other exception with text `m` (caught as the
generic tool-execution failure). -/
inductive ToolError where
  | valueError (msg : String)
  | otherError (msg : String)
deriving Inhabited

/-- The database collaborator behind `get_db_cursor`/`cur.execute`/
`cur.fetchall`: given the SQL text and the parameter list (the source only
ever passes the integer limit), it fails with some error text or returns
the fetched rows as dictionaries (`DictCursor`). -/
def DB : Type :=
  String → List Int → Except String (List (List (String × JValue)))

/-- `_tool_echo` (src/main.py:201-209): requires a non-`None` `text`
argument, else `ValueError("'text' field required")`; returns
`{"type": "text", "content": str(text)}`.  A non-dict `arguments` value
would raise `AttributeError` at `arguments.get`. -/
def _tool_echo (arguments : JValue) : Except ToolError Output :=
  match arguments with
  | .obj kvs =>
    let text := dGet kvs "text"
    if text.isNull then
      .error (.valueError "'text' field required")
    else
      .ok ⟨"text", .str (pyStr text)⟩
  | _ => .error (.otherError "'object' has no attribute 'get'")

/-- `_tool_upper` (src/main.py:212-220): same precondition as `_tool_echo`;
returns `{"type": "text", "content": str(text).upper()}`. -/
def _tool_upper (arguments : JValue) : Except ToolError Output :=
  match arguments with
  | .obj kvs =>
    let text := dGet kvs "text"
    if text.isNull then
      .error (.valueError "'text' field required")
    else
      .ok ⟨"text", .str (pyUpper (pyStr text))⟩
  | _ => .error (.otherError "'object' has no attribute 'get'")

/-- The source's check `isinstance(columns, list) and
all(isinstance(c, str) for c in columns)` (src/main.py:271). -/
def isStrList : JValue → Bool
  | .arr xs => xs.all fun c => match c with | .str _ => true | _ => false
  | _ => false

/-- The strings of a value passing `isStrList` (the selected columns). -/
def strListOf : JValue → List String
  | .arr xs => xs.filterMap fun c => match c with | .str s => some s | _ => none
  | _ => []

/-- The source's check `isinstance(limit, int) and 1 <= limit <= 500`
(src/main.py:273), with Python's `bool <: int`. -/
def limitOk (v : JValue) : Bool :=
  match pyIntVal v with
  | some n => decide (1 ≤ n) && decide (n ≤ 500)
  | none => false

/-- The row/count result dict built by `_tool_query_manse` on success
(src/main.py:297). -/
def queryContent (rows : List (List (String × JValue))) : JValue :=
  .obj [("rows", .arr (rows.map JValue.obj)), ("count", .int rows.length)]

/-- `_tool_query_manse` (src/main.py:266-297).  `columns` and `limit` are
defaulted with Python `or` (so falsy supplied values fall back to `["*"]`
and `10`), then validated; the SQL text is assembled by f-string
concatenation (`WHERE` clause included verbatim when truthy) with
` LIMIT %s` parameterised by the limit; a collaborator failure is
re-raised as `ValueError("Database query failed")`; success wraps the rows
and their count in a `json` output. -/
def _tool_query_manse (db : DB) (arguments : JValue) : Except ToolError Output :=
  match arguments with
  | .obj kvs =>
    let columns := pyOr (dGet kvs "columns") (.arr [.str "*"])
    let whereClause := dGet kvs "where"
    let limit := pyOr (dGet kvs "limit") (.int 10)
    if !isStrList columns then
      .error (.valueError "'columns' must be a list of strings")
    else if !limitOk limit then
      .error (.valueError "'limit' must be int 1-500")
    else
      let selectPart := String.intercalate ", " (strListOf columns)
      let baseQuery :=
        "SELECT " ++ selectPart ++ " FROM manse_data"
          ++ (if pyTruthy whereClause then " WHERE " ++ pyStr whereClause else "")
          ++ " LIMIT %s"
      match db baseQuery [(pyIntVal limit).getD 0] with
      | .error _ => .error (.valueError "Database query failed")
      | .ok rows => .ok ⟨"json", queryContent rows⟩
  | _ => .error (.otherError "'object' has no attribute 'get'")

/-- Tool metadata as in the pydantic `Tool` model (src/main.py:195-198):
exactly a name, a description and an input schema — no handler. -/
structure ToolMeta where
  name : String
  description : String
  input_schema : JValue
deriving Inhabited

/-- A `TOOLS` registry entry: the handler callable and the metadata. -/
structure ToolEntry where
  callable : JValue → Except ToolError Output
  meta : ToolMeta

/-- The `TOOLS` registry (src/main.py:223-263) in insertion order,
parameterised by the database collaborator used by `query_manse`. -/
def TOOLS (db : DB) : List (String × ToolEntry) :=
  [ ("echo",
      ⟨_tool_echo,
        ⟨"echo", "Echo back the provided text",
          .obj [ ("type", .str "object"),
                 ("properties", .obj [("text", .obj [("type", .str "string")])]),
                 ("required", .arr [.str "text"]) ]⟩⟩),
    ("uppercase",
      ⟨_tool_upper,
        ⟨"uppercase", "Return the text in uppercase",
          .obj [ ("type", .str "object"),
                 ("properties", .obj [("text", .obj [("type", .str "string")])]),
                 ("required", .arr [.str "text"]) ]⟩⟩),
    ("query_manse",
      ⟨_tool_query_manse db,
        ⟨"query_manse",
         "Run a SELECT query on manse.manse_data table with optional filters (limit default 10)",
          .obj [ ("type", .str "object"),
                 ("properties", .obj
                   [ ("columns", .obj [ ("type", .str "array"),
                                        ("items", .obj [("type", .str "string")]),
                                        ("description", .str "Columns to select") ]),
                     ("where", .obj [ ("type", .str "string"),
                                      ("description", .str "Raw SQL WHERE clause without 'WHERE'") ]),
                     ("limit", .obj [ ("type", .str "integer"),
                                      ("minimum", .int 1),
                                      ("maximum", .int 500),
                                      ("default", .int 10) ]) ]) ]⟩⟩) ]

/-- `TOOLS.get(name)` with a parsed JSON value as key: only string keys
are registered. -/
def toolsGet (db : DB) : JValue → Option ToolEntry
  | .str s => (TOOLS db).lookup s
  | _ => none

/-- A JSON-RPC request identifier: `Union[str, int, None]`
(src/main.py:172). -/
inductive RpcId where
  | str (s : String)
  | num (n : Int)
  | null
deriving DecidableEq, Inhabited

/-- The parsed `JSONRPCRequest` body (src/main.py:170-174). -/
structure JSONRPCRequest where
  jsonrpc : String
  id : RpcId
  method : String
  params : Option (List (String × JValue))

/-- The two response shapes the endpoint returns: `JSONRPCSuccess` or
`JSONRPCError` (src/main.py:177-192), each echoing the request id. -/
inductive RpcResponse where
  | success (id : RpcId) (result : JValue)
  | error (id : RpcId) (code : Int) (message : String) (data : Option JValue)
deriving Inhabited

/-- `Tool.model_dump()`: the metadata dict listed by `mcp.list_tools`. -/
def toolMetaJson (m : ToolMeta) : JValue :=
  .obj [ ("name", .str m.name),
         ("description", .str m.description),
         ("input_schema", m.input_schema) ]

/-- The dict form of an output inside `result.outputs`. -/
def outputJson (o : Output) : JValue :=
  .obj [("type", .str o.type), ("content", o.content)]

/-- `mcp_rpc` (src/main.py:305-351): version gate, then routing to
`mcp.list_tools`, `mcp.call_tool` (with missing-name, unknown-tool,
`ValueError` and generic-exception outcomes) or the method-not-found
error. -/
def mcp_rpc (db : DB) (req : JSONRPCRequest) : RpcResponse :=
  if req.jsonrpc ≠ "2.0" then
    .error req.id (-32600) "Invalid JSON-RPC version" none
  else
    let params := req.params.getD []
    if req.method = "mcp.list_tools" then
      .success req.id (.obj [("tools", .arr ((TOOLS db).map fun t => toolMetaJson t.2.meta))])
    else if req.method = "mcp.call_tool" then
      let name := dGet params "name"
      let arguments := pyOr (dGet params "arguments") (.obj [])
      if !pyTruthy name then
        .error req.id (-32602) "Missing 'name' in params" none
      else
        match toolsGet db name with
        | none => .error req.id (-32601) ("Tool '" ++ pyStr name ++ "' not found") none
        | some entry =>
          match entry.callable arguments with
          | .ok output => .success req.id (.obj [("outputs", .arr [outputJson output])])
          | .error (.valueError m) => .error req.id (-32602) m none
          | .error (.otherError m) =>
              .error req.id (-32000) "Tool execution failure" (some (.str m))
    else
      .error req.id (-32601) ("Method '" ++ req.method ++ "' not found") none

/-- `_derive_output_text` (src/main.py:92-107): a dict containing a
`text` key yields `str` of that value, anything else yields `str` of the
whole payload; the function is total (the source's defensive
`except`-to-`""` branch is unreachable for values `str` accepts). -/
def _derive_output_text (raw : JValue) : String :=
  match raw with
  | .obj kvs =>
    match kvs.lookup "text" with
    | some v => pyStr v
    | none => pyStr (.obj kvs)
  | v => pyStr v

/-- The parsed single-shot `MCPRequest` body (src/main.py:64-69): `none`
for `inputs` covers both an absent field and an explicit JSON `null`
(pydantic maps both to `None`). -/
structure MCPRequest where
  model : Option String
  inputs : Option JValue
  instructions : Option String
  metadata : Option (List (String × JValue))

/-- One `MCPOutput` of the single-shot response (src/main.py:72-74). -/
structure MCPOutput where
  type : String
  content : String
deriving DecidableEq

/-- The single-shot `MCPResponse` (src/main.py:77-81). -/
structure MCPResponse where
  id : String
  status : String
  model : Option String
  outputs : List MCPOutput
deriving DecidableEq

/-- What the `/mcp` POST endpoint hands back to the transport: either an
`HTTPException` (status code and detail, no protocol body) or a response
body. -/
inductive EndpointResult where
  | httpError (status : Nat) (detail : String)
  | ok (resp : MCPResponse)
deriving DecidableEq

/-- `mcp_endpoint` (src/main.py:111-134), with the generated
`uuid.uuid4()` run id passed in as `runId`: missing `inputs` raises
`HTTPException(400)`; otherwise the response has status `succeeded` and a
single text output derived by `_derive_output_text`. -/
def mcp_endpoint (runId : String) (req : MCPRequest) : EndpointResult :=
  match req.inputs with
  | none => .httpError 400 "`inputs` field is required"
  | some v =>
      .ok ⟨runId, "succeeded", req.model, [⟨"text", _derive_output_text v⟩]⟩

/-! ## Observables and test collaborators -/

/-- The identifier a response carries (both shapes echo one). -/
def RpcResponse.rid : RpcResponse → RpcId
  | .success i _ => i
  | .error i _ _ _ => i

/-- The error code of a response, `none` for a success. -/
def RpcResponse.errCode : RpcResponse → Option Int
  | .success _ _ => none
  | .error _ c _ _ => some c

/-- The `result.tools` array of a `mcp.list_tools` success response. -/
def responseTools (r : RpcResponse) : List JValue :=
  match r with
  | .success _ (.obj kvs) =>
    match kvs.lookup "tools" with
    | some (.arr ts) => ts
    | _ => []
  | _ => []

/-- The `name` fields of the listed tools. -/
def responseToolNames (r : RpcResponse) : List String :=
  (responseTools r).filterMap fun t =>
    match t with
    | .obj fs =>
      match fs.lookup "name" with
      | some (.str s) => some s
      | _ => none
    | _ => none

/-- The keys of a dict value (empty for non-dicts). -/
def objKeys : JValue → List String
  | .obj kvs => kvs.map Prod.fst
  | _ => []

/-- A well-formed `mcp.call_tool` request for tool `toolName` with
argument dict `kvs`. -/
def mkCallTool (id : RpcId) (toolName : String)
    (kvs : List (String × JValue)) : JSONRPCRequest :=
  ⟨"2.0", id, "mcp.call_tool", some [("name", .str toolName), ("arguments", .obj kvs)]⟩

/-- A collaborator that succeeds with no rows on any query. -/
def dbEmptyOk : DB := fun _ _ => .ok []

/-- A collaborator that always fails (e.g. the MariaDB host is down). -/
def dbBoom : DB := fun _ _ => .error "boom: connection refused"

/-- A collaborator that succeeds (with no rows) only when the parameter
list is exactly `[10]` — it observes which LIMIT value reaches the
database. -/
def dbOnlyLimit10 : DB := fun _ ps => if ps = [10] then .ok [] else .error "unexpected limit"

/-- A collaborator that always returns one fixed row. -/
def dbOneRow : DB := fun _ _ => .ok [[("idx", .int 1), ("name", .str "row1")]]

/-- How `mcp_rpc` folds a handler outcome into a response: success wraps
the single output, `ValueError` becomes `-32602` with the handler's
message, any other exception becomes `-32000` with a generic message. -/
def dispatchOutcome (id : RpcId) : Except ToolError Output → RpcResponse
  | .ok output => .success id (.obj [("outputs", .arr [outputJson output])])
  | .error (.valueError m) => .error id (-32602) m none
  | .error (.otherError m) => .error id (-32000) "Tool execution failure" (some (.str m))

theorem pyOr_obj (kvs : List (String × JValue)) :
    pyOr (.obj kvs) (.obj []) = .obj kvs := by
  cases kvs <;> rfl

/-- Evaluation of `mcp_rpc` on a well-formed `mcp.call_tool` request whose
tool name is registered: the registered callable runs on the argument dict
and its outcome is folded by `dispatchOutcome`. -/
theorem mcp_rpc_mkCallTool (db : DB) (id : RpcId) (tn : String)
    (kvs : List (String × JValue)) (entry : ToolEntry)
    (h : (TOOLS db).lookup tn = some entry) (hn : tn ≠ "") :
    mcp_rpc db (mkCallTool id tn kvs) = dispatchOutcome id (entry.callable (.obj kvs)) := by
  have htn : pyTruthy (JValue.str tn) = true := by
    simp [pyTruthy, bne_iff_ne, hn]
  have harg : pyOr (JValue.obj kvs) (JValue.obj []) = JValue.obj kvs := pyOr_obj kvs
  have hget : toolsGet db (JValue.str tn) = some entry := by
    simpa [toolsGet] using h
  cases hres : entry.callable (JValue.obj kvs) with
  | ok o =>
      simp [mcp_rpc, mkCallTool, dGet, List.lookup, htn, harg, hres, hget,
        dispatchOutcome]
  | error e =>
      cases e <;>
        simp [mcp_rpc, mkCallTool, dGet, List.lookup, htn, harg, hres, hget,
          dispatchOutcome]

/-! ## Claim theorems -/

/-- C5: for every RPC request, whether it resolves to a success or to an
error response, the response identifier is type- and value-identical to
the request identifier (string ids stay strings, numeric ids stay
numbers, absent/null stays null) — every branch of `mcp_rpc` echoes
`req.id`. -/
theorem C5_identifier_echo (db : DB) (req : JSONRPCRequest) :
    (mcp_rpc db req).rid = req.id := by
  unfold mcp_rpc
  repeat' split <;> try rfl
  all_goals dsimp only
  all_goals repeat' split <;> try rfl

/-- C6: every RPC request whose `jsonrpc` field differs from `"2.0"` is
answered with error `-32600` immediately, regardless of the method named;
the response does not depend on the method or the registry, so no routing
or handler invocation occurs. -/
theorem C6_version_gate (db : DB) (req : JSONRPCRequest)
    (h : req.jsonrpc ≠ "2.0") :
    mcp_rpc db req = .error req.id (-32600) "Invalid JSON-RPC version" none := by
  unfold mcp_rpc
  simp [h]

theorem C6_version_gate_witness :
    mcp_rpc dbEmptyOk ⟨"1.0", .num 7, "mcp.list_tools", none⟩ =
      .error (.num 7) (-32600) "Invalid JSON-RPC version" none :=
  C6_version_gate dbEmptyOk ⟨"1.0", .num 7, "mcp.list_tools", none⟩ (by decide)

/-- Whether a payload is a dict containing a `text` key (the condition
`isinstance(raw, dict) and "text" in raw` of `_derive_output_text`). -/
def hasTextKey : JValue → Bool
  | .obj kvs => (kvs.lookup "text").isSome
  | _ => false

/-- C7: the single-shot output text follows the fixed deterministic rule:
a dict payload containing a `text` key yields the textual form of that
value (so `{text: S}` with a string `S` yields `S` exactly), any other
payload yields the textual form of the whole payload; the derivation is a
total function (it cannot raise). -/
theorem C7_derive_output_text :
    (∀ (kvs : List (String × JValue)) (v : JValue),
        kvs.lookup "text" = some v → _derive_output_text (.obj kvs) = pyStr v) ∧
    (∀ (S : String) (kvs : List (String × JValue)),
        kvs.lookup "text" = some (.str S) → _derive_output_text (.obj kvs) = S) ∧
    (∀ raw : JValue, hasTextKey raw = false → _derive_output_text raw = pyStr raw) := by
  refine ⟨?_, ?_, ?_⟩
  · intro kvs v h
    simp [_derive_output_text, h]
  · intro S kvs h
    simp [_derive_output_text, h, pyStr]
  · intro raw h
    cases raw with
    | obj kvs =>
        cases hl : kvs.lookup "text" with
        | none => simp [_derive_output_text, hl]
        | some v => simp [hasTextKey, hl] at h
    | null => rfl
    | bool b => rfl
    | int n => rfl
    | str s => rfl
    | arr xs => rfl

theorem C7_derive_output_text_witness :
    _derive_output_text (.obj [("text", .str "hello")]) = "hello" ∧
    _derive_output_text (.obj [("text", .int 5)]) = pyStr (.int 5) ∧
    _derive_output_text (.arr [.int 1]) = pyStr (.arr [.int 1]) :=
  ⟨C7_derive_output_text.2.1 "hello" [("text", .str "hello")] rfl,
   C7_derive_output_text.1 [("text", .int 5)] (.int 5) rfl,
   C7_derive_output_text.2.2 (.arr [.int 1]) rfl⟩

/-- C9: a single-shot request with a missing payload fails at the
transport level (`HTTPException` with status 400) and no protocol-level
body is produced; every request with a payload present yields a success
body with status `succeeded` — those are the only two outcomes of
`mcp_endpoint`. -/
theorem C9_single_shot_failure_path :
    (∀ (runId : String) (req : MCPRequest), req.inputs = none →
        mcp_endpoint runId req = .httpError 400 "`inputs` field is required") ∧
    (∀ (runId : String) (req : MCPRequest) (v : JValue), req.inputs = some v →
        mcp_endpoint runId req =
          .ok ⟨runId, "succeeded", req.model, [⟨"text", _derive_output_text v⟩]⟩) := by
  constructor
  · intro runId req h
    unfold mcp_endpoint
    rw [h]
  · intro runId req v h
    unfold mcp_endpoint
    rw [h]

theorem C9_single_shot_failure_path_witness :
    mcp_endpoint "run-1" ⟨none, none, none, none⟩ =
      .httpError 400 "`inputs` field is required" ∧
    mcp_endpoint "run-1" ⟨some "m1", some (.obj [("text", .str "hello")]), none, none⟩ =
      .ok ⟨"run-1", "succeeded", some "m1", [⟨"text", "hello"⟩]⟩ :=
  ⟨C9_single_shot_failure_path.1 "run-1" ⟨none, none, none, none⟩ rfl,
   C9_single_shot_failure_path.2 "run-1"
     ⟨some "m1", some (.obj [("text", .str "hello")]), none, none⟩
     (.obj [("text", .str "hello")]) rfl⟩

/-- C10 (implicit): the echo and uppercase handlers accept any
non-`None` value for `text`, not only strings: for every non-null `v`
they succeed, returning the textual form of `v` (echo) or its upper-cased
textual form (uppercase); no `ValueError` (hence no `-32602` response) is
produced for a wrongly-typed `text` despite the declared schema. -/
theorem C10_text_not_type_checked (v : JValue) (kvs : List (String × JValue))
    (h : kvs.lookup "text" = some v) (hnn : v.isNull = false) :
    _tool_echo (.obj kvs) = .ok ⟨"text", .str (pyStr v)⟩ ∧
    _tool_upper (.obj kvs) = .ok ⟨"text", .str (pyUpper (pyStr v))⟩ := by
  constructor
  · simp [_tool_echo, dGet, h, hnn]
  · simp [_tool_upper, dGet, h, hnn]

theorem C10_text_not_type_checked_witness :
    _tool_echo (.obj [("text", .int 42)]) = .ok ⟨"text", .str "42"⟩ ∧
    _tool_upper (.obj [("text", .arr [.int 1, .str "a"])]) =
      .ok ⟨"text", .str "[1, 'A']"⟩ := by
  have h1 := C10_text_not_type_checked (.int 42) [("text", .int 42)] rfl rfl
  have h2 := C10_text_not_type_checked (.arr [.int 1, .str "a"])
    [("text", .arr [.int 1, .str "a"])] rfl rfl
  exact ⟨by rw [h1.1]; rfl, by rw [h2.2]; rfl⟩

/-- C8: `call_tool` on `echo` with `{text: s}` succeeds with the single
output `{type: text, content: s}` unchanged, on `uppercase` with the
upper-cased form of `s`; for either built-in a missing `text` field gives
error `-32602` with the message `'text' field required`, which mentions
the missing field. -/
theorem C8_builtin_tools :
    (∀ (db : DB) (id : RpcId) (s : String),
        mcp_rpc db (mkCallTool id "echo" [("text", .str s)]) =
          .success id (.obj [("outputs",
            .arr [.obj [("type", .str "text"), ("content", .str s)]])])) ∧
    (∀ (db : DB) (id : RpcId) (s : String),
        mcp_rpc db (mkCallTool id "uppercase" [("text", .str s)]) =
          .success id (.obj [("outputs",
            .arr [.obj [("type", .str "text"), ("content", .str (pyUpper s))]])])) ∧
    (∀ (db : DB) (id : RpcId) (kvs : List (String × JValue)),
        kvs.lookup "text" = none →
        mcp_rpc db (mkCallTool id "echo" kvs) =
          .error id (-32602) "'text' field required" none ∧
        mcp_rpc db (mkCallTool id "uppercase" kvs) =
          .error id (-32602) "'text' field required" none) := by
  refine ⟨?_, ?_, ?_⟩
  · intro db id s
    rw [mcp_rpc_mkCallTool db id "echo" [("text", .str s)] _ rfl (by decide)]
    simp [_tool_echo, dGet, List.lookup, JValue.isNull, pyStr, dispatchOutcome, outputJson]
  · intro db id s
    rw [mcp_rpc_mkCallTool db id "uppercase" [("text", .str s)] _ rfl (by decide)]
    simp [_tool_upper, dGet, List.lookup, JValue.isNull, pyStr, dispatchOutcome, outputJson]
  · intro db id kvs h
    constructor
    · rw [mcp_rpc_mkCallTool db id "echo" kvs _ rfl (by decide)]
      simp [_tool_echo, dGet, h, JValue.isNull, dispatchOutcome]
    · rw [mcp_rpc_mkCallTool db id "uppercase" kvs _ rfl (by decide)]
      simp [_tool_upper, dGet, h, JValue.isNull, dispatchOutcome]

theorem C8_builtin_tools_witness :
    mcp_rpc dbEmptyOk (mkCallTool (.num 1) "echo" [("text", .str "hello")]) =
      .success (.num 1) (.obj [("outputs",
        .arr [.obj [("type", .str "text"), ("content", .str "hello")]])]) ∧
    mcp_rpc dbEmptyOk (mkCallTool (.num 2) "uppercase" [("text", .str "hello")]) =
      .success (.num 2) (.obj [("outputs",
        .arr [.obj [("type", .str "text"), ("content", .str "HELLO")]])]) ∧
    mcp_rpc dbEmptyOk (mkCallTool (.num 3) "echo" []) =
      .error (.num 3) (-32602) "'text' field required" none :=
  ⟨C8_builtin_tools.1 dbEmptyOk (.num 1) "hello",
   C8_builtin_tools.2.1 dbEmptyOk (.num 2) "hello",
   (C8_builtin_tools.2.2 dbEmptyOk (.num 3) [] rfl).1⟩

/-- C4: with a valid protocol version, `mcp.call_tool` without a `name`
parameter gives error `-32602`; `mcp.call_tool` with an unregistered tool
name gives error `-32601`; any method other than `mcp.list_tools` and
`mcp.call_tool` gives error `-32601` — unknown tool and unknown method
share the code. -/
theorem C4_method_and_tool_resolution :
    (∀ (db : DB) (req : JSONRPCRequest),
        req.jsonrpc = "2.0" → req.method = "mcp.call_tool" →
        (req.params.getD []).lookup "name" = none →
        mcp_rpc db req = .error req.id (-32602) "Missing 'name' in params" none) ∧
    (∀ (db : DB) (id : RpcId) (s : String) (kvs : List (String × JValue)),
        (TOOLS db).lookup s = none → s ≠ "" →
        mcp_rpc db (mkCallTool id s kvs) =
          .error id (-32601) ("Tool '" ++ s ++ "' not found") none) ∧
    (∀ (db : DB) (req : JSONRPCRequest),
        req.jsonrpc = "2.0" →
        req.method ≠ "mcp.list_tools" → req.method ≠ "mcp.call_tool" →
        mcp_rpc db req =
          .error req.id (-32601) ("Method '" ++ req.method ++ "' not found") none) := by
  refine ⟨?_, ?_, ?_⟩
  · intro db req h1 h2 h3
    unfold mcp_rpc
    simp [h1, h2, dGet, h3, pyTruthy]
  · intro db id s kvs h hn
    have hget : toolsGet db (JValue.str s) = none := by
      simpa [toolsGet] using h
    unfold mcp_rpc
    simp [mkCallTool, dGet, List.lookup, hget, pyTruthy, bne_iff_ne, hn, pyStr]
  · intro db req h1 h2 h3
    unfold mcp_rpc
    simp [h1, h2, h3]

theorem C4_method_and_tool_resolution_witness :
    mcp_rpc dbEmptyOk ⟨"2.0", .num 1, "mcp.call_tool", none⟩ =
      .error (.num 1) (-32602) "Missing 'name' in params" none ∧
    mcp_rpc dbEmptyOk (mkCallTool (.num 2) "frobnicate" []) =
      .error (.num 2) (-32601) "Tool 'frobnicate' not found" none ∧
    mcp_rpc dbEmptyOk ⟨"2.0", .num 3, "mcp.ping", none⟩ =
      .error (.num 3) (-32601) "Method 'mcp.ping' not found" none :=
  ⟨C4_method_and_tool_resolution.1 dbEmptyOk ⟨"2.0", .num 1, "mcp.call_tool", none⟩
      rfl rfl rfl,
   C4_method_and_tool_resolution.2.1 dbEmptyOk (.num 2) "frobnicate" [] rfl (by decide),
   C4_method_and_tool_resolution.2.2 dbEmptyOk ⟨"2.0", .num 3, "mcp.ping", none⟩
      rfl (by decide) (by decide)⟩

/-- C3 counterexample: the registered tool names are
`echo`, `uppercase`, `query_manse` — the literal name `query` is not
among the names returned by `mcp.list_tools`, so the name set is not a
superset of `{echo, uppercase, query}`. -/
theorem C3_counterexample :
    responseToolNames (mcp_rpc dbEmptyOk ⟨"2.0", .num 1, "mcp.list_tools", none⟩) =
      ["echo", "uppercase", "query_manse"] ∧
    "query" ∉ responseToolNames (mcp_rpc dbEmptyOk ⟨"2.0", .num 1, "mcp.list_tools", none⟩) := by
  refine ⟨rfl, ?_⟩
  have h : responseToolNames (mcp_rpc dbEmptyOk ⟨"2.0", .num 1, "mcp.list_tools", none⟩) =
      ["echo", "uppercase", "query_manse"] := rfl
  rw [h]
  decide

/-- C3 as amended: every `mcp.list_tools` request with valid protocol
version succeeds with `{tools: [...]}` listing exactly the registered
metadata; the name set is a superset of `{echo, uppercase, query_manse}`
(the collaborator-backed tool is registered as `query_manse`), and each
entry exposes exactly `name`, `description` and `input_schema` — never a
handler reference. -/
theorem C3_list_tools_metadata (db : DB) (req : JSONRPCRequest)
    (hv : req.jsonrpc = "2.0") (hm : req.method = "mcp.list_tools") :
    mcp_rpc db req =
      .success req.id (.obj [("tools",
        .arr ((TOOLS db).map fun t => toolMetaJson t.2.meta))]) ∧
    responseToolNames (mcp_rpc db req) = ["echo", "uppercase", "query_manse"] ∧
    (responseTools (mcp_rpc db req)).map objKeys =
      [["name", "description", "input_schema"],
       ["name", "description", "input_schema"],
       ["name", "description", "input_schema"]] := by
  have hr : mcp_rpc db req =
      .success req.id (.obj [("tools",
        .arr ((TOOLS db).map fun t => toolMetaJson t.2.meta))]) := by
    unfold mcp_rpc
    simp [hv, hm]
  refine ⟨hr, ?_, ?_⟩ <;> rw [hr] <;> rfl

theorem C3_list_tools_metadata_witness :
    mcp_rpc dbEmptyOk ⟨"2.0", .str "a", "mcp.list_tools", none⟩ =
      .success (.str "a") (.obj [("tools",
        .arr ((TOOLS dbEmptyOk).map fun t => toolMetaJson t.2.meta))]) ∧
    responseToolNames (mcp_rpc dbEmptyOk ⟨"2.0", .str "a", "mcp.list_tools", none⟩) =
      ["echo", "uppercase", "query_manse"] ∧
    (responseTools (mcp_rpc dbEmptyOk ⟨"2.0", .str "a", "mcp.list_tools", none⟩)).map objKeys =
      [["name", "description", "input_schema"],
       ["name", "description", "input_schema"],
       ["name", "description", "input_schema"]] :=
  C3_list_tools_metadata dbEmptyOk ⟨"2.0", .str "a", "mcp.list_tools", none⟩ rfl rfl

/-- C1 counterexample: `limit=0` does not produce error `-32602` — the
handler's `arguments.get("limit") or 10` treats the falsy `0` as absent,
so the call succeeds, querying the collaborator with the default limit 10
(witnessed by a collaborator that only succeeds on parameter list
`[10]`). -/
theorem C1_counterexample :
    mcp_rpc dbOnlyLimit10 (mkCallTool (.num 1) "query_manse" [("limit", .int 0)]) =
      .success (.num 1) (.obj [("outputs", .arr [.obj [("type", .str "json"),
        ("content", .obj [("rows", .arr []), ("count", .int 0)])]])]) ∧
    (mcp_rpc dbOnlyLimit10 (mkCallTool (.num 1) "query_manse" [("limit", .int 0)])).errCode ≠
      some (-32602) := by
  refine ⟨rfl, ?_⟩
  have h : (mcp_rpc dbOnlyLimit10
      (mkCallTool (.num 1) "query_manse" [("limit", .int 0)])).errCode = none := rfl
  rw [h]
  decide

/-- C1 as amended: a supplied `limit` that is truthy and not an integer
in `[1, 500]` produces error `-32602` (in particular `limit=501` does,
with message `'limit' must be int 1-500`); a falsy `limit` — absent,
`null`, `0`, `false` — is replaced by the default 10, so `limit=0` is
treated as absent rather than rejected, and an absent limit reaches the
collaborator as 10. -/
theorem C1_limit_validation :
    (∀ (db : DB) (id : RpcId) (kvs : List (String × JValue)) (l : JValue),
        dGet kvs "limit" = l → pyTruthy l = true → limitOk l = false →
        (mcp_rpc db (mkCallTool id "query_manse" kvs)).errCode = some (-32602)) ∧
    (∀ (db : DB) (id : RpcId),
        mcp_rpc db (mkCallTool id "query_manse" [("limit", .int 501)]) =
          .error id (-32602) "'limit' must be int 1-500" none) ∧
    (∀ id : RpcId,
        mcp_rpc dbOnlyLimit10 (mkCallTool id "query_manse" []) =
          .success id (.obj [("outputs", .arr [.obj [("type", .str "json"),
            ("content", .obj [("rows", .arr []), ("count", .int 0)])]])])) := by
  refine ⟨?_, ?_, ?_⟩
  · intro db id kvs l hl ht hlim
    rw [mcp_rpc_mkCallTool db id "query_manse" kvs _ rfl (by decide)]
    cases hc : isStrList (pyOr (dGet kvs "columns") (.arr [.str "*"])) with
    | false => simp [_tool_query_manse, hc, dispatchOutcome, RpcResponse.errCode]
    | true =>
        have hlim' : limitOk (pyOr (dGet kvs "limit") (.int 10)) = false := by
          simp only [hl, pyOr, ht, if_true]
          exact hlim
        simp [_tool_query_manse, hc, hlim', dispatchOutcome, RpcResponse.errCode]
  · intro db id
    rw [mcp_rpc_mkCallTool db id "query_manse" [("limit", .int 501)] _ rfl (by decide)]
    rfl
  · intro id
    rw [mcp_rpc_mkCallTool dbOnlyLimit10 id "query_manse" [] _ rfl (by decide)]
    rfl

theorem C1_limit_validation_witness :
    (mcp_rpc dbEmptyOk (mkCallTool (.str "w") "query_manse"
        [("limit", .str "many")])).errCode = some (-32602) ∧
    mcp_rpc dbEmptyOk (mkCallTool (.num 2) "query_manse" [("limit", .int 501)]) =
      .error (.num 2) (-32602) "'limit' must be int 1-500" none ∧
    mcp_rpc dbOnlyLimit10 (mkCallTool (.num 3) "query_manse" []) =
      .success (.num 3) (.obj [("outputs", .arr [.obj [("type", .str "json"),
        ("content", .obj [("rows", .arr []), ("count", .int 0)])]])]) :=
  ⟨C1_limit_validation.1 dbEmptyOk (.str "w") [("limit", .str "many")]
      (.str "many") rfl rfl rfl,
   C1_limit_validation.2.1 dbEmptyOk (.num 2),
   C1_limit_validation.2.2 (.num 3)⟩

/-- C2 counterexample: when the collaborator fails, the handler raises
`ValueError("Database query failed")`, which the dispatcher catches in
its `ValueError` branch — the response code is `-32602`, not the claimed
`-32000`. -/
theorem C2_counterexample :
    mcp_rpc dbBoom (mkCallTool (.num 9) "query_manse" [("limit", .int 5)]) =
      .error (.num 9) (-32602) "Database query failed" none ∧
    (mcp_rpc dbBoom (mkCallTool (.num 9) "query_manse" [("limit", .int 5)])).errCode ≠
      some (-32000) := by
  refine ⟨rfl, ?_⟩
  have h : (mcp_rpc dbBoom
      (mkCallTool (.num 9) "query_manse" [("limit", .int 5)])).errCode =
        some (-32602) := rfl
  rw [h]
  decide

/-- C2 as amended: with valid parameters, a collaborator failure is
reported as error `-32602` (the dispatcher's `ValueError` branch, not
`-32000`) with the generic message `Database query failed` — independent
of the underlying error text, which is not leaked; on success the result
is the single output `{type: json, content: {rows, count}}` with `count`
equal to the number of returned rows. -/
theorem C2_query_outcomes :
    (∀ (db : DB) (id : RpcId) (kvs : List (String × JValue)) (emsg : String),
        isStrList (pyOr (dGet kvs "columns") (.arr [.str "*"])) = true →
        limitOk (pyOr (dGet kvs "limit") (.int 10)) = true →
        (∀ q ps, db q ps = .error emsg) →
        mcp_rpc db (mkCallTool id "query_manse" kvs) =
          .error id (-32602) "Database query failed" none) ∧
    (∀ (db : DB) (id : RpcId) (kvs : List (String × JValue))
        (rows : List (List (String × JValue))),
        isStrList (pyOr (dGet kvs "columns") (.arr [.str "*"])) = true →
        limitOk (pyOr (dGet kvs "limit") (.int 10)) = true →
        (∀ q ps, db q ps = .ok rows) →
        mcp_rpc db (mkCallTool id "query_manse" kvs) =
          .success id (.obj [("outputs", .arr [.obj [("type", .str "json"),
            ("content", .obj [("rows", .arr (rows.map JValue.obj)),
                              ("count", .int rows.length)])]])])) := by
  constructor
  · intro db id kvs emsg hc hl hdb
    rw [mcp_rpc_mkCallTool db id "query_manse" kvs _ rfl (by decide)]
    simp [_tool_query_manse, hc, hl, hdb, dispatchOutcome]
  · intro db id kvs rows hc hl hdb
    rw [mcp_rpc_mkCallTool db id "query_manse" kvs _ rfl (by decide)]
    simp [_tool_query_manse, hc, hl, hdb, dispatchOutcome, outputJson, queryContent]

theorem C2_query_outcomes_witness :
    mcp_rpc dbBoom (mkCallTool (.str "w2") "query_manse" []) =
      .error (.str "w2") (-32602) "Database query failed" none ∧
    mcp_rpc dbOneRow (mkCallTool (.str "w2b") "query_manse" []) =
      .success (.str "w2b") (.obj [("outputs", .arr [.obj [("type", .str "json"),
        ("content", .obj [("rows", .arr [.obj [("idx", .int 1), ("name", .str "row1")]]),
                          ("count", .int 1)])]])]) :=
  ⟨C2_query_outcomes.1 dbBoom (.str "w2") [] "boom: connection refused"
      rfl rfl (fun _ _ => rfl),
   C2_query_outcomes.2 dbOneRow (.str "w2b") [] [[("idx", .int 1), ("name", .str "row1")]]
      rfl rfl (fun _ _ => rfl)⟩

end McpTest
